import Mathlib

/-!
A shallow embedding of `src/mm/migrate_sma.c`, the batched relocation
protocol for secure-compartment (SMA) pages.

Pages are identified by PFN (a `Nat`).  The per-page kernel state tracked by
the model consists exactly of the `struct page` observations the source
consults: the secure-membership flag, writeback state, `__PageMovable`,
`page->mapping != NULL`, `page_mapped`, and whether the migration thread
holds the page lock.  The outcomes of the external memory-management
primitives (`trylock_page` contention, `try_to_unmap`, `move_to_new_page`,
`get_new_page`, `page_count`) are supplied by per-pass, per-page
environments, so every adversarial sequence of transient failures is a
choice of environment.  `BUG()` halts the kernel and is modelled as an
aborting outcome (`Option.none` at batch level).  `lock_page` (the blocking
acquire, reachable only on the `force && mode != MIGRATE_ASYNC &&
!PF_MEMALLOC` path) is one of the locking primitives the spec treats as
already-correct, and is modelled as returning with the lock held.
`anon_vma` get/put, `VM_BUG_ON_PAGE` (compiled out without
CONFIG_DEBUG_VM), `cond_resched`, `set_page_owner_migrate_reason` and the
`pr_err` logging have no effect on the tracked state and are not modelled,
except that the `page_count(newpage) != 2` diagnostic of
`__move_sma_page` is surfaced as a warning flag/counter.
-/

set_option linter.unusedVariables false

namespace MigrateSMA

/-- Result codes as the C code uses them: `MIGRATEPAGE_SUCCESS = 0`
(include/linux/migrate.h), failures are negated errnos. -/
abbrev Rc := Int

def MIGRATEPAGE_SUCCESS : Rc := 0

/-- errno 11; the code returns `-EAGAIN`. -/
def EAGAIN : Rc := 11

/-- errno 12; the code returns `-ENOMEM`. -/
def ENOMEM : Rc := 12

/-- `enum migrate_mode`: only the distinctions the source consults. -/
inductive MigrateMode
  | async
  | sync_light
  | sync
  | sync_no_copy
deriving DecidableEq, Repr

/-- Per-page kernel state: the fields of `struct page` that
`migrate_sma.c` reads or writes.  `movable` is `__PageMovable(page)`
(so `is_lru = !movable`); `mapping` is `page->mapping != NULL`; `mapped`
is `page_mapped(page)`; `locked` means the migration thread holds the
page lock. -/
structure PageState where
  is_sec_mem : Bool
  writeback : Bool
  movable : Bool
  mapping : Bool
  mapped : Bool
  locked : Bool
deriving DecidableEq, Repr

/-- The process-wide Migration-Window State: `is_migrating`,
`migrate_sec_vm_id`, `nr_migrate_pages`, and the fixed table
`uint64_t migrate_ipns[2048]`, modelled as a function (only indices
`< 2048` are meaningful; the static initializer is all zeroes). -/
structure MWState where
  is_migrating : Bool
  sec_vm_id : Nat
  nr_pages : Nat
  ipns : Nat → Nat

/-- Environment for one unmap attempt on one page: `contended` is true if
another thread holds the page lock during `trylock_page`; `unmapOk` is
whether `try_to_unmap` clears every mapping; `ipnWrites` are the
intermediate addresses the external fault-handler path records into the
Migration-Window State while `try_to_unmap` runs. -/
structure UnmapEnv where
  contended : Bool
  unmapOk : Bool
  ipnWrites : List Nat

/-- Environment for one move attempt on one page: the page returned by
`get_new_page` (`none` models allocation failure), contention on
`trylock_page(newpage)`, the result of `move_to_new_page`, and the value
`page_count(newpage)` observed after the move. -/
structure MoveEnv where
  newpage : Option Nat
  newpageLockOk : Bool
  moveRc : Rc
  newCount : Nat

/-- Modelled from the spec: the recording performed by the external
fault-handler path (`handle_hva_to_gpa`, not part of `src/`) while
`try_to_unmap` removes mappings during the migration window —
"recording, for each mapping removed, the corresponding intermediate
address into the Migration-Window State's address table (bounded by
capacity) and incrementing its page counter". -/
def record_ipns (mw : MWState) : List Nat → MWState
  | [] => mw
  | a :: rest =>
      if mw.nr_pages < 2048 then
        record_ipns
          { mw with
            ipns := fun i => if i = mw.nr_pages then a else mw.ipns i,
            nr_pages := mw.nr_pages + 1 } rest
      else record_ipns mw rest

/-- `trylock_page`: the non-blocking lock acquisition fails iff the lock is
already held — by this thread from an earlier attempt (`st.locked`) or by
another thread (`env.contended`). -/
def trylock_page (st : PageState) (env : UnmapEnv) : Bool :=
  !st.locked && !env.contended

/-- Outcome of `__unmap_sma_page`: either `BUG()` fired (carrying the page
state at that instant, to show what had and had not been mutated), or an
ordinary return of `rc` together with the updated page and window state. -/
inductive UnmapOut
  | bug (st : PageState)
  | ret (rc : Rc) (st : PageState) (mw : MWState)

/-- `__unmap_sma_page(page, force, mode, reason)` (lines 1–93).
`memalloc` is `current->flags & PF_MEMALLOC`.  Control flow mirrors the
source: `rc` starts at `-EAGAIN`; a non-secure page is `BUG()` before any
lock is taken; a failed `trylock_page` returns `-EAGAIN` unless
`force && mode != MIGRATE_ASYNC && !PF_MEMALLOC`, in which case
`lock_page` blocks and acquires; writeback and `__PageMovable`
(`!is_lru`) pages are `BUG()`; a page with no mapping structure succeeds
trivially when unmapped, and otherwise keeps `-EAGAIN` with the lock
still held; a mapped page goes through `try_to_unmap` — on success the
page is left locked, on failure `remove_migration_ptes` restores the
mappings and the page is unlocked. -/
def unmap_sma_page_core (memalloc : Bool) (env : UnmapEnv) (st : PageState)
    (mw : MWState) (force : Bool) (mode : MigrateMode) : UnmapOut :=
  if !st.is_sec_mem then
    UnmapOut.bug st
  else if !trylock_page st env &&
      (!force || decide (mode = MigrateMode.async) || memalloc) then
    UnmapOut.ret (-EAGAIN) st mw
  else
    let st1 : PageState := { st with locked := true }
    if st1.writeback then
      UnmapOut.bug st1
    else if st1.movable then
      UnmapOut.bug st1
    else if !st1.mapping then
      (if !st1.mapped then UnmapOut.ret MIGRATEPAGE_SUCCESS st1 mw
       else UnmapOut.ret (-EAGAIN) st1 mw)
    else if st1.mapped then
      (let mw1 := record_ipns mw env.ipnWrites
       if env.unmapOk then
         UnmapOut.ret MIGRATEPAGE_SUCCESS { st1 with mapped := false } mw1
       else
         UnmapOut.ret (-EAGAIN) { st1 with locked := false } mw1)
    else
      UnmapOut.ret (-EAGAIN) st1 mw

/-- `unmap_sma_page` (lines 95–99): a direct wrapper. -/
def unmap_sma_page (memalloc : Bool) (env : UnmapEnv) (st : PageState)
    (mw : MWState) (force : Bool) (mode : MigrateMode) : UnmapOut :=
  unmap_sma_page_core memalloc env st mw force mode

/-- Point update of a page store. -/
def updStore (f : Nat → PageState) (k : Nat) (v : PageState) :
    Nat → PageState :=
  fun q => if q = k then v else f q

/-- Mutable state of `unmap_sma_pages`: the page store, the window state,
the `unmapped_head` list built so far (`list_add` prepends), the last
`rc`, and the `retry` / `nr_succeeded` / pass counters. -/
structure UState where
  store : Nat → PageState
  mw : MWState
  unmapped : List Nat
  rc : Rc
  retry : Nat
  nr_succeeded : Nat
  npasses : Nat

/-- One `list_for_each_entry_safe` pass of `unmap_sma_pages` (lines
116–141) over the pending list: each page is attempted; `-EAGAIN`
increments `retry` and keeps the page pending; `MIGRATEPAGE_SUCCESS`
moves it onto `unmapped_head`; any other code (the `default` arm) keeps
the page pending without touching `retry`.  `rc` always becomes the last
attempt's code.  A `BUG()` aborts the batch (`none`). -/
def unmapPass (memalloc : Bool) (envp : Nat → UnmapEnv) (force : Bool)
    (mode : MigrateMode) : List Nat → UState → Option (List Nat × UState)
  | [], s => some ([], s)
  | p :: rest, s =>
    match unmap_sma_page memalloc (envp p) (s.store p) s.mw force mode with
    | UnmapOut.bug _ => none
    | UnmapOut.ret rc st mw =>
      let s1 : UState :=
        { s with store := updStore s.store p st, mw := mw, rc := rc }
      if rc = MIGRATEPAGE_SUCCESS then
        unmapPass memalloc envp force mode rest
          { s1 with
            unmapped := p :: s1.unmapped,
            nr_succeeded := s1.nr_succeeded + 1 }
      else
        match unmapPass memalloc envp force mode rest
            { s1 with retry := s1.retry + (if rc = -EAGAIN then 1 else 0) } with
        | none => none
        | some (pend, sF) => some (p :: pend, sF)

/-- The retry loop of `unmap_sma_pages` (line 113):
`for (pass = 0; pass < 10 && retry; pass++) { retry = 0; ... }`, with
`force = pass > 2`.  The fuel argument is `10 - pass`. -/
def unmapLoop (memalloc : Bool) (env : Nat → Nat → UnmapEnv)
    (mode : MigrateMode) :
    Nat → Nat → List Nat → UState → Option (List Nat × UState)
  | 0, _, pending, s => some (pending, s)
  | fuel + 1, pass, pending, s =>
    if s.retry = 0 then some (pending, s)
    else
      match unmapPass memalloc (env pass) (decide (2 < pass)) mode pending
          { s with retry := 0, npasses := s.npasses + 1 } with
      | none => none
      | some (pending', s') =>
        unmapLoop memalloc env mode fuel (pass + 1) pending' s'

/-- `unmap_sma_pages(from, mode, reason, unmapped_head)` (lines 101–145):
runs up to 10 passes starting from `rc = MIGRATEPAGE_SUCCESS`,
`retry = 1`; returns the final pending list and loop state (whose `rc`
is the returned value), or `none` if a `BUG()` fired. -/
def unmap_sma_pages (memalloc : Bool) (env : Nat → Nat → UnmapEnv)
    (mode : MigrateMode) (batch : List Nat) (store0 : Nat → PageState)
    (mw0 : MWState) : Option (List Nat × UState) :=
  unmapLoop memalloc env mode 10 0 batch
    { store := store0, mw := mw0, unmapped := [],
      rc := MIGRATEPAGE_SUCCESS, retry := 1, nr_succeeded := 0, npasses := 0 }

/-- Outcome of `__move_sma_page`: the returned `rc`, whether the
`page_count(newpage) != 2` diagnostic fired, and the updated states of
the source page and the destination page. -/
structure MvOut where
  rc : Rc
  warn : Bool
  pageSt : PageState
  newSt : PageState

/-- `__move_sma_page(page, newpage, mode)` (lines 147–197).  `rc` starts at
`-EAGAIN`.  A failed `trylock_page(newpage)` goes to `failed`
immediately.  If the source is unexpectedly still mapped, the code goes
to `failed` — note this path skips `unlock_page(newpage)`, so the
destination stays locked.  Otherwise `move_to_new_page` runs (its result
comes from the environment) and `page_count(newpage) != 2` is logged;
the destination is unlocked, and on success the source page is unlocked
as well (the anon_vma get/put pair is refcount-neutral). -/
def move_sma_page_core (env : MoveEnv) (pageSt newSt : PageState)
    (mode : MigrateMode) : MvOut :=
  if newSt.locked || !env.newpageLockOk then
    { rc := -EAGAIN, warn := false, pageSt := pageSt, newSt := newSt }
  else
    let newSt1 : PageState := { newSt with locked := true }
    if pageSt.mapped then
      { rc := -EAGAIN, warn := false, pageSt := pageSt, newSt := newSt1 }
    else
      let rc := env.moveRc
      let warn := decide (env.newCount ≠ 2)
      let newSt2 : PageState := { newSt1 with locked := false }
      if rc = MIGRATEPAGE_SUCCESS then
        { rc := rc, warn := warn,
          pageSt := { pageSt with locked := false }, newSt := newSt2 }
      else
        { rc := rc, warn := warn, pageSt := pageSt, newSt := newSt2 }

/-- Mutable state of `move_sma_pages`: the page store, the `moved_head`
list built so far, the last `rc`, loop counters, and instrumentation
counting, per source page, the `get_new_page` / `put_new_page` callback
invocations and the `page_count(newpage) != 2` diagnostics. -/
structure MoveState where
  store : Nat → PageState
  moved : List Nat
  rc : Rc
  retry : Nat
  nr_succeeded : Nat
  npasses : Nat
  supplyCount : Nat → Nat
  releaseCount : Nat → Nat
  refcountErrs : Nat

/-- Bump a per-page counter. -/
def bump (f : Nat → Nat) (k : Nat) : Nat → Nat :=
  fun q => if q = k then f q + 1 else f q

/-- `move_sma_page(get_new_page, put_new_page, private, page, mode, reason)`
(lines 199–245): calls `get_new_page` (counted); `NULL` yields
`-ENOMEM`.  Otherwise `__move_sma_page` runs; on success a destination
without the secure flag is `BUG()` (`none`); on `-EAGAIN` the
destination is returned through `put_new_page` (counted, when the
callback is present — otherwise plain `put_page`); any other code is
only logged. -/
def move_sma_page (env : MoveEnv) (hasPutNewPage : Bool)
    (mode : MigrateMode) (s : MoveState) (p : Nat) :
    Option (Rc × MoveState) :=
  let s0 : MoveState := { s with supplyCount := bump s.supplyCount p }
  match env.newpage with
  | none => some (-ENOMEM, s0)
  | some np =>
    let mv := move_sma_page_core env (s0.store p) (s0.store np) mode
    let s1 : MoveState :=
      { s0 with
        store := updStore (updStore s0.store p mv.pageSt) np mv.newSt,
        refcountErrs := s0.refcountErrs + (if mv.warn then 1 else 0) }
    if mv.rc = MIGRATEPAGE_SUCCESS then
      if !mv.newSt.is_sec_mem then none
      else some (mv.rc, s1)
    else if mv.rc = -EAGAIN then
      some (mv.rc,
        { s1 with
          releaseCount :=
            if hasPutNewPage then bump s1.releaseCount p
            else s1.releaseCount })
    else
      some (mv.rc, s1)

/-- One `list_for_each_entry_safe` pass of `move_sma_pages` (lines
263–284) over the unmapped list: `-EAGAIN` increments `retry` and keeps
the page; `MIGRATEPAGE_SUCCESS` moves it onto `moved_head`; any other
code (e.g. `-ENOMEM`) keeps the page without touching `retry`. -/
def movePass (envp : Nat → MoveEnv) (hasPutNewPage : Bool)
    (mode : MigrateMode) :
    List Nat → MoveState → Option (List Nat × MoveState)
  | [], s => some ([], s)
  | p :: rest, s =>
    match move_sma_page (envp p) hasPutNewPage mode s p with
    | none => none
    | some (rc, s') =>
      let s1 : MoveState := { s' with rc := rc }
      if rc = MIGRATEPAGE_SUCCESS then
        movePass envp hasPutNewPage mode rest
          { s1 with
            moved := p :: s1.moved,
            nr_succeeded := s1.nr_succeeded + 1 }
      else
        match movePass envp hasPutNewPage mode rest
            { s1 with retry := s1.retry + (if rc = -EAGAIN then 1 else 0) } with
        | none => none
        | some (rem, sF) => some (p :: rem, sF)

/-- The retry loop of `move_sma_pages` (line 260): up to 10 passes while
`retry` is set. -/
def moveLoop (env : Nat → Nat → MoveEnv) (hasPutNewPage : Bool)
    (mode : MigrateMode) :
    Nat → Nat → List Nat → MoveState → Option (List Nat × MoveState)
  | 0, _, remaining, s => some (remaining, s)
  | fuel + 1, pass, remaining, s =>
    if s.retry = 0 then some (remaining, s)
    else
      match movePass (env pass) hasPutNewPage mode remaining
          { s with retry := 0, npasses := s.npasses + 1 } with
      | none => none
      | some (remaining', s') =>
        moveLoop env hasPutNewPage mode fuel (pass + 1) remaining' s'

/-- `move_sma_pages(get_new_page, put_new_page, private, unmapped_head,
mode, reason, moved_head)` (lines 247–288). -/
def move_sma_pages (env : Nat → Nat → MoveEnv) (hasPutNewPage : Bool)
    (mode : MigrateMode) (unmappedList : List Nat)
    (store0 : Nat → PageState) : Option (List Nat × MoveState) :=
  moveLoop env hasPutNewPage mode 10 0 unmappedList
    { store := store0, moved := [], rc := MIGRATEPAGE_SUCCESS, retry := 1,
      nr_succeeded := 0, npasses := 0, supplyCount := fun _ => 0,
      releaseCount := fun _ => 0, refcountErrs := 0 }

/-- The external request-type constant `REQ_KVM_TO_S_VISOR_REMAP_IPA`
(value supplied by an external header, not part of `src/`). -/
def REQ_KVM_TO_S_VISOR_REMAP_IPA : Nat := 0

/-- `kvm_smc_req_t` as filled by `migrate_sma_pages` (lines 337–343):
compartment id, request kind, source/destination base PFN, the fixed
page count `8 << (20 - 12) = 2048`, and the `memcpy`'d copy of the whole
`migrate_ipns` table. -/
structure SmcReq where
  sec_vm_id : Nat
  req_type : Nat
  src_start_pfn : Nat
  dst_start_pfn : Nat
  nr_pages : Nat
  ipn_list : Nat → Nat

/-- The batch-start reset of the Migration-Window State performed by
`migrate_sma_pages` (lines 325–327): `migrate_sec_vm_id = 0;
nr_migrate_pages = 0; is_migrating = true;` — note the `migrate_ipns`
table itself is not touched. -/
def mwBatchInit (mw : MWState) : MWState :=
  { mw with sec_vm_id := 0, nr_pages := 0, is_migrating := true }

/-- Everything `migrate_sma_pages` leaves behind: the returned `rc`, the
final Migration-Window State, the monitor request if the `smc` was
issued, the three list partitions at return (residue of `from`, residue
of the local `unmapped_head`, and `moved_head`), the final page store,
and the Move Phase instrumentation. -/
structure MigOut where
  rc : Rc
  mw : MWState
  smc : Option SmcReq
  pending : List Nat
  unmapped : List Nat
  moved : List Nat
  store : Nat → PageState
  supplyCount : Nat → Nat
  releaseCount : Nat → Nat
  refcountErrs : Nat

/-- `migrate_sma_pages(from, get_new_page, put_new_page, private, mode,
reason)` (lines 306–363).  The PF_SWAPWRITE save/restore, `smp_processor_id`
and the irq masking around the `smc` have no effect on the tracked state.
`src_base_pfn` is the first page of the (PFN-sorted) batch,
`dst_base_pfn` comes from the `sec_mem_cache` passed as `private`.  The
window state is reset via `mwBatchInit`; on unmap failure (`rc != 0`)
the function jumps to `out` — without clearing `is_migrating` and
without issuing the monitor call; on unmap success `is_migrating` is
cleared, the request descriptor is built and the `smc` issued, and the
Move Phase runs with `mode = MIGRATE_SYNC_NO_COPY`. -/
def migrate_sma_pages (uEnv : Nat → Nat → UnmapEnv)
    (mEnv : Nat → Nat → MoveEnv) (hasPutNewPage : Bool) (memalloc : Bool)
    (dst_base_pfn : Nat) (mode : MigrateMode) (batch : List Nat)
    (store0 : Nat → PageState) (mw0 : MWState) : Option MigOut :=
  let src_base_pfn := batch.headI
  let mw1 := mwBatchInit mw0
  match unmap_sma_pages memalloc uEnv mode batch store0 mw1 with
  | none => none
  | some (pending', u) =>
    if u.rc ≠ 0 then
      some { rc := u.rc, mw := u.mw, smc := none, pending := pending',
             unmapped := u.unmapped, moved := [], store := u.store,
             supplyCount := fun _ => 0, releaseCount := fun _ => 0,
             refcountErrs := 0 }
    else
      let mw2 : MWState := { u.mw with is_migrating := false }
      let req : SmcReq :=
        { sec_vm_id := mw2.sec_vm_id,
          req_type := REQ_KVM_TO_S_VISOR_REMAP_IPA,
          src_start_pfn := src_base_pfn,
          dst_start_pfn := dst_base_pfn,
          nr_pages := 8 <<< (20 - 12),
          ipn_list := mw2.ipns }
      match move_sma_pages mEnv hasPutNewPage MigrateMode.sync_no_copy
          u.unmapped u.store with
      | none => none
      | some (unmapped', m) =>
        some { rc := m.rc, mw := mw2, smc := some req, pending := pending',
               unmapped := unmapped', moved := m.moved, store := m.store,
               supplyCount := m.supplyCount, releaseCount := m.releaseCount,
               refcountErrs := m.refcountErrs }

/-! Concrete fixtures shared by witnesses and counterexamples. -/

/-- A secure anonymous-style page with live mappings, as a batch normally
presents them to the Unmap Phase. -/
def mappedPage : PageState := ⟨true, false, false, true, true, false⟩

/-- A secure page after a successful unmap: no mapping structure left in the
model's view, unmapped, still locked (the Unmap Phase leaves it locked). -/
def unmappedSrc : PageState := ⟨true, false, false, false, false, true⟩

/-- A freshly supplied destination page: secure, unmapped, unlocked. -/
def freshDest : PageState := ⟨true, false, false, false, false, false⟩

/-- The boot-time Migration-Window State: all zero, table zeroed. -/
def zeroMW : MWState := ⟨false, 0, 0, fun _ => 0⟩

/-- Unmap environment with no contention and a fully successful
`try_to_unmap`, recording nothing. -/
def cleanEnv : UnmapEnv := ⟨false, true, []⟩

/-- Unmap environment in which `try_to_unmap` fails (transient failure). -/
def stuckEnv : UnmapEnv := ⟨false, false, []⟩

/-- Move environment for a fully successful attempt: `get_new_page` supplies
page `np`, the destination lock is free, `move_to_new_page` succeeds and
the post-move reference count is the expected 2. -/
def goodMove (np : Nat) : MoveEnv := ⟨some np, true, MIGRATEPAGE_SUCCESS, 2⟩

/-! Helper lemmas. -/

/-- One unmap pass only moves pages between the pending list and
`unmapped_head`: their concatenation is preserved up to permutation. -/
theorem unmapPass_perm (memalloc : Bool) (envp : Nat → UnmapEnv)
    (force : Bool) (mode : MigrateMode) (l : List Nat) :
    ∀ (s : UState) (l' : List Nat) (s' : UState),
      unmapPass memalloc envp force mode l s = some (l', s') →
      (l' ++ s'.unmapped).Perm (l ++ s.unmapped) := by
  induction l with
  | nil =>
      intro s l' s' h
      simp only [unmapPass, Option.some.injEq, Prod.mk.injEq] at h
      obtain ⟨h1, h2⟩ := h
      subst h1; subst h2
      exact List.Perm.refl _
  | cons p rest ih =>
      intro s l' s' h
      simp only [unmapPass] at h
      split at h
      · exact Option.noConfusion h
      · split at h
        · exact (ih _ _ _ h).trans List.perm_middle
        · split at h
          · exact Option.noConfusion h
          next pend sF heq2 =>
            simp only [Option.some.injEq, Prod.mk.injEq] at h
            obtain ⟨h1, h2⟩ := h
            subst h1; subst h2
            exact (ih _ _ _ heq2).cons p

/-- The unmap retry loop preserves pending ++ unmapped up to permutation. -/
theorem unmapLoop_perm (memalloc : Bool) (env : Nat → Nat → UnmapEnv)
    (mode : MigrateMode) (fuel : Nat) :
    ∀ (pass : Nat) (pending : List Nat) (s : UState) (l' : List Nat)
      (s' : UState),
      unmapLoop memalloc env mode fuel pass pending s = some (l', s') →
      (l' ++ s'.unmapped).Perm (pending ++ s.unmapped) := by
  induction fuel with
  | zero =>
      intro pass pending s l' s' h
      simp only [unmapLoop, Option.some.injEq, Prod.mk.injEq] at h
      obtain ⟨h1, h2⟩ := h
      subst h1; subst h2
      exact List.Perm.refl _
  | succ fuel ih =>
      intro pass pending s l' s' h
      simp only [unmapLoop] at h
      split at h
      · simp only [Option.some.injEq, Prod.mk.injEq] at h
        obtain ⟨h1, h2⟩ := h
        subst h1; subst h2
        exact List.Perm.refl _
      · split at h
        · exact Option.noConfusion h
        next pending' s1 heq =>
          have hp := unmapPass_perm memalloc (env pass) _ mode pending _ _ _ heq
          exact (ih _ _ _ _ _ h).trans hp

/-- `move_sma_page` never touches the loop-owned fields of the state:
`moved`, `rc`, `retry`, `nr_succeeded`, `npasses`. -/
theorem move_sma_page_loop_fields (env : MoveEnv) (hasPut : Bool)
    (mode : MigrateMode) (s : MoveState) (p : Nat) (rc : Rc)
    (s' : MoveState)
    (h : move_sma_page env hasPut mode s p = some (rc, s')) :
    s'.moved = s.moved ∧ s'.retry = s.retry ∧ s'.npasses = s.npasses := by
  simp only [move_sma_page] at h
  split at h
  · simp only [Option.some.injEq, Prod.mk.injEq] at h
    obtain ⟨h1, h2⟩ := h
    subst h2
    exact ⟨rfl, rfl, rfl⟩
  · split at h
    · split at h
      · exact Option.noConfusion h
      · simp only [Option.some.injEq, Prod.mk.injEq] at h
        obtain ⟨h1, h2⟩ := h
        subst h2
        exact ⟨rfl, rfl, rfl⟩
    · split at h
      · simp only [Option.some.injEq, Prod.mk.injEq] at h
        obtain ⟨h1, h2⟩ := h
        subst h2
        exact ⟨rfl, rfl, rfl⟩
      · simp only [Option.some.injEq, Prod.mk.injEq] at h
        obtain ⟨h1, h2⟩ := h
        subst h2
        exact ⟨rfl, rfl, rfl⟩

/-- One move pass only moves pages between the unmapped list and
`moved_head`: their concatenation is preserved up to permutation. -/
theorem movePass_perm (envp : Nat → MoveEnv) (hasPut : Bool)
    (mode : MigrateMode) (l : List Nat) :
    ∀ (s : MoveState) (l' : List Nat) (s' : MoveState),
      movePass envp hasPut mode l s = some (l', s') →
      (l' ++ s'.moved).Perm (l ++ s.moved) := by
  induction l with
  | nil =>
      intro s l' s' h
      simp only [movePass, Option.some.injEq, Prod.mk.injEq] at h
      obtain ⟨h1, h2⟩ := h
      subst h1; subst h2
      exact List.Perm.refl _
  | cons p rest ih =>
      intro s l' s' h
      simp only [movePass] at h
      split at h
      · exact Option.noConfusion h
      next rc s0 heq0 =>
        have hm := (move_sma_page_loop_fields _ _ _ _ _ _ _ heq0).1
        split at h
        · have := ih _ _ _ h
          rw [hm] at this
          exact this.trans List.perm_middle
        · split at h
          · exact Option.noConfusion h
          next rem sF heq2 =>
            simp only [Option.some.injEq, Prod.mk.injEq] at h
            obtain ⟨h1, h2⟩ := h
            subst h1; subst h2
            have := ih _ _ _ heq2
            rw [hm] at this
            exact this.cons p

/-- The move retry loop preserves remaining ++ moved up to permutation. -/
theorem moveLoop_perm (env : Nat → Nat → MoveEnv) (hasPut : Bool)
    (mode : MigrateMode) (fuel : Nat) :
    ∀ (pass : Nat) (remaining : List Nat) (s : MoveState) (l' : List Nat)
      (s' : MoveState),
      moveLoop env hasPut mode fuel pass remaining s = some (l', s') →
      (l' ++ s'.moved).Perm (remaining ++ s.moved) := by
  induction fuel with
  | zero =>
      intro pass remaining s l' s' h
      simp only [moveLoop, Option.some.injEq, Prod.mk.injEq] at h
      obtain ⟨h1, h2⟩ := h
      subst h1; subst h2
      exact List.Perm.refl _
  | succ fuel ih =>
      intro pass remaining s l' s' h
      simp only [moveLoop] at h
      split at h
      · simp only [Option.some.injEq, Prod.mk.injEq] at h
        obtain ⟨h1, h2⟩ := h
        subst h1; subst h2
        exact List.Perm.refl _
      · split at h
        · exact Option.noConfusion h
        next remaining' s1 heq =>
          have hp := movePass_perm (env pass) hasPut mode remaining _ _ _ heq
          exact (ih _ _ _ _ _ h).trans hp

/-- A pass does not change the pass counter (it is advanced by the loop). -/
theorem unmapPass_npasses (memalloc : Bool) (envp : Nat → UnmapEnv)
    (force : Bool) (mode : MigrateMode) (l : List Nat) :
    ∀ (s : UState) (l' : List Nat) (s' : UState),
      unmapPass memalloc envp force mode l s = some (l', s') →
      s'.npasses = s.npasses := by
  induction l with
  | nil =>
      intro s l' s' h
      simp only [unmapPass, Option.some.injEq, Prod.mk.injEq] at h
      obtain ⟨h1, h2⟩ := h
      subst h2; rfl
  | cons p rest ih =>
      intro s l' s' h
      simp only [unmapPass] at h
      split at h
      · exact Option.noConfusion h
      · split at h
        · have hh := ih _ _ _ h
          exact hh
        · split at h
          · exact Option.noConfusion h
          next pend sF heq2 =>
            simp only [Option.some.injEq, Prod.mk.injEq] at h
            obtain ⟨h1, h2⟩ := h
            subst h2
            have hh := ih _ _ _ heq2
            exact hh

/-- A move pass does not change the pass counter. -/
theorem movePass_npasses (envp : Nat → MoveEnv) (hasPut : Bool)
    (mode : MigrateMode) (l : List Nat) :
    ∀ (s : MoveState) (l' : List Nat) (s' : MoveState),
      movePass envp hasPut mode l s = some (l', s') →
      s'.npasses = s.npasses := by
  induction l with
  | nil =>
      intro s l' s' h
      simp only [movePass, Option.some.injEq, Prod.mk.injEq] at h
      obtain ⟨h1, h2⟩ := h
      subst h2; rfl
  | cons p rest ih =>
      intro s l' s' h
      simp only [movePass] at h
      split at h
      · exact Option.noConfusion h
      next rc s0 heq0 =>
        have hm := (move_sma_page_loop_fields _ _ _ _ _ _ _ heq0).2.2
        split at h
        · exact (ih _ _ _ h).trans hm
        · split at h
          · exact Option.noConfusion h
          next rem sF heq2 =>
            simp only [Option.some.injEq, Prod.mk.injEq] at h
            obtain ⟨h1, h2⟩ := h
            subst h2
            exact (ih _ _ _ heq2).trans hm

/-- The unmap loop executes at most `fuel` further passes. -/
theorem unmapLoop_npasses_le (memalloc : Bool) (env : Nat → Nat → UnmapEnv)
    (mode : MigrateMode) (fuel : Nat) :
    ∀ (pass : Nat) (pending : List Nat) (s : UState) (l' : List Nat)
      (s' : UState),
      unmapLoop memalloc env mode fuel pass pending s = some (l', s') →
      s'.npasses ≤ s.npasses + fuel := by
  induction fuel with
  | zero =>
      intro pass pending s l' s' h
      simp only [unmapLoop, Option.some.injEq, Prod.mk.injEq] at h
      obtain ⟨h1, h2⟩ := h
      subst h2
      exact Nat.le_refl _
  | succ fuel ih =>
      intro pass pending s l' s' h
      simp only [unmapLoop] at h
      split at h
      · simp only [Option.some.injEq, Prod.mk.injEq] at h
        obtain ⟨h1, h2⟩ := h
        subst h2
        exact Nat.le_add_right _ _
      · split at h
        · exact Option.noConfusion h
        next pending' s1 heq =>
          have h1 := unmapPass_npasses memalloc (env pass) _ mode pending _ _ _ heq
          have h1' : s1.npasses = s.npasses + 1 := h1
          have h2 := ih _ _ _ _ _ h
          omega

/-- The move loop executes at most `fuel` further passes. -/
theorem moveLoop_npasses_le (env : Nat → Nat → MoveEnv) (hasPut : Bool)
    (mode : MigrateMode) (fuel : Nat) :
    ∀ (pass : Nat) (remaining : List Nat) (s : MoveState) (l' : List Nat)
      (s' : MoveState),
      moveLoop env hasPut mode fuel pass remaining s = some (l', s') →
      s'.npasses ≤ s.npasses + fuel := by
  induction fuel with
  | zero =>
      intro pass remaining s l' s' h
      simp only [moveLoop, Option.some.injEq, Prod.mk.injEq] at h
      obtain ⟨h1, h2⟩ := h
      subst h2
      exact Nat.le_refl _
  | succ fuel ih =>
      intro pass remaining s l' s' h
      simp only [moveLoop] at h
      split at h
      · simp only [Option.some.injEq, Prod.mk.injEq] at h
        obtain ⟨h1, h2⟩ := h
        subst h2
        exact Nat.le_add_right _ _
      · split at h
        · exact Option.noConfusion h
        next remaining' s1 heq =>
          have h1 := movePass_npasses (env pass) hasPut mode remaining _ _ _ heq
          have h1' : s1.npasses = s.npasses + 1 := h1
          have h2 := ih _ _ _ _ _ h
          omega

/-- The external recording never touches `is_migrating`. -/
theorem record_ipns_is_migrating :
    ∀ (ws : List Nat) (mw : MWState),
      (record_ipns mw ws).is_migrating = mw.is_migrating := by
  intro ws
  induction ws with
  | nil => intro mw; rfl
  | cons a rest ih =>
      intro mw
      simp only [record_ipns]
      split
      · exact ih _
      · exact ih _

/-- A single unmap attempt never touches `is_migrating`. -/
theorem unmap_sma_page_is_migrating (memalloc : Bool) (env : UnmapEnv)
    (st : PageState) (mw : MWState) (force : Bool) (mode : MigrateMode)
    (rc : Rc) (st' : PageState) (mw' : MWState)
    (h : unmap_sma_page memalloc env st mw force mode
          = UnmapOut.ret rc st' mw') :
    mw'.is_migrating = mw.is_migrating := by
  simp only [unmap_sma_page, unmap_sma_page_core] at h
  split at h
  · exact UnmapOut.noConfusion h
  · split at h
    · cases h; rfl
    · split at h
      · exact UnmapOut.noConfusion h
      · split at h
        · exact UnmapOut.noConfusion h
        · split at h
          · split at h
            · cases h; rfl
            · cases h; rfl
          · split at h
            · split at h
              · cases h
                exact record_ipns_is_migrating _ _
              · cases h
                exact record_ipns_is_migrating _ _
            · cases h; rfl

/-- A pass of the unmap loop never touches `is_migrating`. -/
theorem unmapPass_is_migrating (memalloc : Bool) (envp : Nat → UnmapEnv)
    (force : Bool) (mode : MigrateMode) (l : List Nat) :
    ∀ (s : UState) (l' : List Nat) (s' : UState),
      unmapPass memalloc envp force mode l s = some (l', s') →
      s'.mw.is_migrating = s.mw.is_migrating := by
  induction l with
  | nil =>
      intro s l' s' h
      simp only [unmapPass, Option.some.injEq, Prod.mk.injEq] at h
      obtain ⟨h1, h2⟩ := h
      subst h2; rfl
  | cons p rest ih =>
      intro s l' s' h
      simp only [unmapPass] at h
      split at h
      · exact Option.noConfusion h
      next rc st mw heq0 =>
        have hmw := unmap_sma_page_is_migrating memalloc (envp p) _ _ force mode _ _ _ heq0
        split at h
        · exact (ih _ _ _ h).trans hmw
        · split at h
          · exact Option.noConfusion h
          next pend sF heq2 =>
            simp only [Option.some.injEq, Prod.mk.injEq] at h
            obtain ⟨h1, h2⟩ := h
            subst h2
            exact (ih _ _ _ heq2).trans hmw

/-- The unmap loop never touches `is_migrating`. -/
theorem unmapLoop_is_migrating (memalloc : Bool) (env : Nat → Nat → UnmapEnv)
    (mode : MigrateMode) (fuel : Nat) :
    ∀ (pass : Nat) (pending : List Nat) (s : UState) (l' : List Nat)
      (s' : UState),
      unmapLoop memalloc env mode fuel pass pending s = some (l', s') →
      s'.mw.is_migrating = s.mw.is_migrating := by
  induction fuel with
  | zero =>
      intro pass pending s l' s' h
      simp only [unmapLoop, Option.some.injEq, Prod.mk.injEq] at h
      obtain ⟨h1, h2⟩ := h
      subst h2; rfl
  | succ fuel ih =>
      intro pass pending s l' s' h
      simp only [unmapLoop] at h
      split at h
      · simp only [Option.some.injEq, Prod.mk.injEq] at h
        obtain ⟨h1, h2⟩ := h
        subst h2; rfl
      · split at h
        · exact Option.noConfusion h
        next pending' s1 heq =>
          have h1 := unmapPass_is_migrating memalloc (env pass) _ mode pending _ _ _ heq
          exact (ih _ _ _ _ _ h).trans h1

/-- If the fault-handler path records nothing, a single unmap attempt
returns the Migration-Window State unchanged. -/
theorem unmap_sma_page_mw_of_nil (memalloc : Bool) (env : UnmapEnv)
    (st : PageState) (mw : MWState) (force : Bool) (mode : MigrateMode)
    (rc : Rc) (st' : PageState) (mw' : MWState)
    (hnil : env.ipnWrites = [])
    (h : unmap_sma_page memalloc env st mw force mode
          = UnmapOut.ret rc st' mw') :
    mw' = mw := by
  simp only [unmap_sma_page, unmap_sma_page_core, hnil] at h
  split at h
  · exact UnmapOut.noConfusion h
  · split at h
    · cases h; rfl
    · split at h
      · exact UnmapOut.noConfusion h
      · split at h
        · exact UnmapOut.noConfusion h
        · split at h
          · split at h
            · cases h; rfl
            · cases h; rfl
          · split at h
            · split at h
              · cases h; rfl
              · cases h; rfl
            · cases h; rfl

/-- With a write-free environment, an unmap pass returns the
Migration-Window State unchanged. -/
theorem unmapPass_mw_of_nil (memalloc : Bool) (envp : Nat → UnmapEnv)
    (force : Bool) (mode : MigrateMode)
    (hnil : ∀ q, (envp q).ipnWrites = []) (l : List Nat) :
    ∀ (s : UState) (l' : List Nat) (s' : UState),
      unmapPass memalloc envp force mode l s = some (l', s') →
      s'.mw = s.mw := by
  induction l with
  | nil =>
      intro s l' s' h
      simp only [unmapPass, Option.some.injEq, Prod.mk.injEq] at h
      obtain ⟨h1, h2⟩ := h
      subst h2; rfl
  | cons p rest ih =>
      intro s l' s' h
      simp only [unmapPass] at h
      split at h
      · exact Option.noConfusion h
      next rc st mw heq0 =>
        have hmw := unmap_sma_page_mw_of_nil memalloc (envp p) _ _ force mode
          _ _ _ (hnil p) heq0
        split at h
        · exact (ih _ _ _ h).trans hmw
        · split at h
          · exact Option.noConfusion h
          next pend sF heq2 =>
            simp only [Option.some.injEq, Prod.mk.injEq] at h
            obtain ⟨h1, h2⟩ := h
            subst h2
            exact (ih _ _ _ heq2).trans hmw

/-- With a write-free environment, the unmap loop returns the
Migration-Window State unchanged. -/
theorem unmapLoop_mw_of_nil (memalloc : Bool) (env : Nat → Nat → UnmapEnv)
    (mode : MigrateMode) (hnil : ∀ i q, (env i q).ipnWrites = [])
    (fuel : Nat) :
    ∀ (pass : Nat) (pending : List Nat) (s : UState) (l' : List Nat)
      (s' : UState),
      unmapLoop memalloc env mode fuel pass pending s = some (l', s') →
      s'.mw = s.mw := by
  induction fuel with
  | zero =>
      intro pass pending s l' s' h
      simp only [unmapLoop, Option.some.injEq, Prod.mk.injEq] at h
      obtain ⟨h1, h2⟩ := h
      subst h2; rfl
  | succ fuel ih =>
      intro pass pending s l' s' h
      simp only [unmapLoop] at h
      split at h
      · simp only [Option.some.injEq, Prod.mk.injEq] at h
        obtain ⟨h1, h2⟩ := h
        subst h2; rfl
      · split at h
        · exact Option.noConfusion h
        next pending' s1 heq =>
          have h1 := unmapPass_mw_of_nil memalloc (env pass) _ mode
            (hnil pass) pending _ _ _ heq
          exact (ih _ _ _ _ _ h).trans h1

/-- A page outside the secure compartment hits `BUG()` first thing, for
every environment, before the lock section and before any state is
touched: the outcome carries the page state verbatim. -/
theorem unmap_sma_page_nonsec (memalloc : Bool) (env : UnmapEnv)
    (st : PageState) (mw : MWState) (force : Bool) (mode : MigrateMode)
    (hsec : st.is_sec_mem = false) :
    unmap_sma_page memalloc env st mw force mode = UnmapOut.bug st := by
  simp [unmap_sma_page, unmap_sma_page_core, hsec]

/-- If any page of the pending list is outside the secure compartment, an
unmap pass aborts with `BUG()`. -/
theorem unmapPass_none_of_nonsec (memalloc : Bool) (envp : Nat → UnmapEnv)
    (force : Bool) (mode : MigrateMode) (p : Nat) (l : List Nat) :
    ∀ (s : UState), p ∈ l → (s.store p).is_sec_mem = false →
      unmapPass memalloc envp force mode l s = none := by
  induction l with
  | nil =>
      intro s hp hsec
      exact absurd hp (List.not_mem_nil p)
  | cons q rest ih =>
      intro s hp hsec
      by_cases hpq : p = q
      · subst hpq
        rw [unmapPass,
          unmap_sma_page_nonsec memalloc (envp p) _ s.mw force mode hsec]
      · have hp' : p ∈ rest := by
          cases List.mem_cons.mp hp with
          | inl hh => exact absurd hh hpq
          | inr hh => exact hh
        rw [unmapPass]
        cases heq0 : unmap_sma_page memalloc (envp q) (s.store q) s.mw force mode with
        | bug st => rfl
        | ret rc st mw =>
          have hsec' : ∀ (st1 : PageState),
              (updStore s.store q st1 p).is_sec_mem = false := by
            intro st1
            simp only [updStore, if_neg hpq]
            exact hsec
          by_cases hrc : rc = MIGRATEPAGE_SUCCESS
          · simp only [hrc, if_pos rfl]
            exact ih _ hp' (hsec' st)
          · simp only [if_neg hrc]
            rw [ih _ hp' (hsec' st)]

/-- If any page of the batch is outside the secure compartment,
`unmap_sma_pages` aborts with `BUG()` (models the kernel halting). -/
theorem unmap_sma_pages_none_of_nonsec (memalloc : Bool)
    (env : Nat → Nat → UnmapEnv) (mode : MigrateMode) (batch : List Nat)
    (store0 : Nat → PageState) (mw0 : MWState) (p : Nat)
    (hp : p ∈ batch) (hsec : (store0 p).is_sec_mem = false) :
    unmap_sma_pages memalloc env mode batch store0 mw0 = none := by
  rw [unmap_sma_pages, unmapLoop]
  rw [unmapPass_none_of_nonsec memalloc (env 0) _ mode p batch _ hp hsec]
  simp

/-! Claim theorems. -/

/-- Claim C2: at every exit of `migrate_sma_pages` — success and abort
alike — the three lists pending (residue of `from`), unmapped and moved
partition the original input batch: their concatenation is a permutation
of it, so (for duplicate-free batches) every page is a member of exactly
one list, no page is in two lists, and no page is dropped; in particular
moved ∪ residual after an abort equals the original pending set.  The
pass- and page-level helper lemmas above extend this to every
intermediate point. -/
theorem c2_lists_partition_batch (uEnv : Nat → Nat → UnmapEnv)
    (mEnv : Nat → Nat → MoveEnv) (hasPutNewPage memalloc : Bool)
    (dst : Nat) (mode : MigrateMode) (batch : List Nat)
    (store0 : Nat → PageState) (mw0 : MWState) :
    match migrate_sma_pages uEnv mEnv hasPutNewPage memalloc dst mode batch
        store0 mw0 with
    | none => True
    | some o => (o.pending ++ (o.unmapped ++ o.moved)).Perm batch := by
  split
  · trivial
  next o heq =>
    simp only [migrate_sma_pages] at heq
    split at heq
    · exact Option.noConfusion heq
    next pending' u hu =>
      simp only [unmap_sma_pages] at hu
      have hperm : (pending' ++ u.unmapped).Perm batch := by
        have := unmapLoop_perm memalloc uEnv mode 10 0 batch _ _ _ hu
        simpa using this
      split at heq
      · simp only [Option.some.injEq] at heq
        subst heq
        simpa using hperm
      · split at heq
        · exact Option.noConfusion heq
        next unmapped' m hm =>
          simp only [move_sma_pages] at hm
          have hperm2 : (unmapped' ++ m.moved).Perm u.unmapped := by
            have := moveLoop_perm mEnv hasPutNewPage MigrateMode.sync_no_copy
              10 0 u.unmapped _ _ _ hm
            simpa using this
          simp only [Option.some.injEq] at heq
          subst heq
          exact (hperm2.append_left pending').trans hperm

/-- Claim C8 (amended): each of the two phase loops performs at most 10
passes over its residual list and terminates; but after the final pass
the loop does not reliably declare batch failure when pages remain — it
returns the last attempt's code, which can be `MIGRATEPAGE_SUCCESS`
(see the counterexample). -/
theorem c8_at_most_ten_passes (memalloc : Bool)
    (uEnv : Nat → Nat → UnmapEnv) (mEnv : Nat → Nat → MoveEnv)
    (hasPutNewPage : Bool) (mode : MigrateMode)
    (batch unmappedList : List Nat) (store0 store1 : Nat → PageState)
    (mw0 : MWState) :
    (match unmap_sma_pages memalloc uEnv mode batch store0 mw0 with
     | none => True
     | some x => x.2.npasses ≤ 10) ∧
    (match move_sma_pages mEnv hasPutNewPage mode unmappedList store1 with
     | none => True
     | some x => x.2.npasses ≤ 10) := by
  constructor
  · split
    · trivial
    next x heq =>
      simp only [unmap_sma_pages] at heq
      have := unmapLoop_npasses_le memalloc uEnv mode 10 0 batch _ _ _ heq
      simpa using this
  · split
    · trivial
    next x heq =>
      simp only [move_sma_pages] at heq
      have := moveLoop_npasses_le mEnv hasPutNewPage mode 10 0 unmappedList
        _ _ _ heq
      simpa using this

/-- Claim C9: a page presented with the secure-compartment membership flag
unset, or found in writeback state, raises a fatal invariant violation
(`BUG()`); in the non-secure case it is raised immediately — for every
environment, before any lock is taken on the page and with the page
state untouched (the `bug` outcome carries the state verbatim) — and the
batch aborts before the page could be moved between lists. -/
theorem c9_nonsecure_and_writeback_fatal (memalloc : Bool) (env : UnmapEnv)
    (st : PageState) (mw : MWState) (force : Bool) (mode : MigrateMode)
    (uEnv : Nat → Nat → UnmapEnv) (batch : List Nat)
    (store0 : Nat → PageState) (mw0 : MWState) (p : Nat) :
    (st.is_sec_mem = false →
      unmap_sma_page memalloc env st mw force mode = UnmapOut.bug st) ∧
    (st.is_sec_mem = true → st.writeback = true →
      trylock_page st env = true →
      unmap_sma_page memalloc env st mw force mode
        = UnmapOut.bug { st with locked := true }) ∧
    (p ∈ batch → (store0 p).is_sec_mem = false →
      unmap_sma_pages memalloc uEnv mode batch store0 mw0 = none) := by
  refine ⟨?_, ?_, ?_⟩
  · intro hsec
    exact unmap_sma_page_nonsec memalloc env st mw force mode hsec
  · intro hsec hwb htl
    simp [unmap_sma_page, unmap_sma_page_core, hsec, hwb, htl]
  · intro hp hsec
    exact unmap_sma_pages_none_of_nonsec memalloc uEnv mode batch store0
      mw0 p hp hsec

/-- Witness for C9 at concrete inputs: a non-secure page is `BUG()` with
its state untouched, a secure writeback page is `BUG()` after locking,
and a batch containing a non-secure page aborts. -/
theorem c9_nonsecure_and_writeback_fatal_witness :
    unmap_sma_page false cleanEnv ⟨false, false, false, true, true, false⟩
        zeroMW false MigrateMode.sync
      = UnmapOut.bug ⟨false, false, false, true, true, false⟩ ∧
    unmap_sma_page false cleanEnv ⟨true, true, false, true, true, false⟩
        zeroMW false MigrateMode.sync
      = UnmapOut.bug ⟨true, true, false, true, true, true⟩ ∧
    unmap_sma_pages false (fun _ _ => cleanEnv) MigrateMode.sync [0]
        (fun _ => ⟨false, false, false, true, true, false⟩) zeroMW = none := by
  refine ⟨?_, ?_, ?_⟩
  · exact (c9_nonsecure_and_writeback_fatal false cleanEnv
      ⟨false, false, false, true, true, false⟩ zeroMW false MigrateMode.sync
      (fun _ _ => cleanEnv) [0]
      (fun _ => ⟨false, false, false, true, true, false⟩) zeroMW 0).1 rfl
  · exact (c9_nonsecure_and_writeback_fatal false cleanEnv
      ⟨true, true, false, true, true, false⟩ zeroMW false MigrateMode.sync
      (fun _ _ => cleanEnv) [0]
      (fun _ => ⟨false, false, false, true, true, false⟩) zeroMW 0).2.1
      rfl rfl rfl
  · exact (c9_nonsecure_and_writeback_fatal false cleanEnv
      ⟨false, false, false, true, true, false⟩ zeroMW false MigrateMode.sync
      (fun _ _ => cleanEnv) [0]
      (fun _ => ⟨false, false, false, true, true, false⟩) zeroMW 0).2.2
      (by decide) rfl

/-- Claim C10: a page with `page->mapping == NULL` but `page_mapped(page)`
makes `__unmap_sma_page` return `-EAGAIN` with the page lock still held
— unlike the mapped-page failure path, which restores the migration
entries and unlocks — and therefore every later non-blocking
`trylock_page` on that page fails, yielding `-EAGAIN` again (with the
lock still held) on every pass that does not force a blocking lock. -/
theorem c10_null_mapping_mapped_keeps_lock (memalloc memalloc2 : Bool)
    (env env2 : UnmapEnv) (st : PageState) (mw : MWState)
    (force force2 : Bool) (mode mode2 : MigrateMode)
    (hsec : st.is_sec_mem = true) (hwb : st.writeback = false)
    (hmov : st.movable = false) (hmap : st.mapping = false)
    (hm : st.mapped = true) (hl : st.locked = false)
    (hc : env.contended = false) :
    unmap_sma_page memalloc env st mw force mode
        = UnmapOut.ret (-EAGAIN) { st with locked := true } mw ∧
    trylock_page { st with locked := true } env2 = false ∧
    (env.unmapOk = false →
      unmap_sma_page memalloc env { st with mapping := true } mw force mode
        = UnmapOut.ret (-EAGAIN) { st with mapping := true, locked := false }
            (record_ipns mw env.ipnWrites)) ∧
    (force2 = false ∨ mode2 = MigrateMode.async ∨ memalloc2 = true →
      unmap_sma_page memalloc2 env2 { st with locked := true } mw force2 mode2
        = UnmapOut.ret (-EAGAIN) { st with locked := true } mw) := by
  refine ⟨?_, ?_, ?_, ?_⟩
  · simp [unmap_sma_page, unmap_sma_page_core, trylock_page, hsec, hwb,
      hmov, hmap, hm, hl, hc]
  · simp [trylock_page]
  · intro hok
    simp [unmap_sma_page, unmap_sma_page_core, trylock_page, hsec, hwb,
      hmov, hm, hl, hc, hok]
  · rintro (h2 | h2 | h2) <;>
      simp [unmap_sma_page, unmap_sma_page_core, trylock_page, hsec, h2]

/-- Witness for C10 at a concrete page: the `-EAGAIN`-with-lock-held
return, the failing later trylock, the contrasting unlocking path, and
the later non-blocking attempt returning `-EAGAIN` again. -/
theorem c10_null_mapping_mapped_keeps_lock_witness :
    unmap_sma_page false stuckEnv ⟨true, false, false, false, true, false⟩
        zeroMW false MigrateMode.sync
      = UnmapOut.ret (-EAGAIN) ⟨true, false, false, false, true, true⟩
          zeroMW ∧
    trylock_page ⟨true, false, false, false, true, true⟩ stuckEnv = false ∧
    unmap_sma_page false stuckEnv ⟨true, false, false, true, true, false⟩
        zeroMW false MigrateMode.sync
      = UnmapOut.ret (-EAGAIN) ⟨true, false, false, true, true, false⟩
          (record_ipns zeroMW stuckEnv.ipnWrites) ∧
    unmap_sma_page false stuckEnv ⟨true, false, false, false, true, true⟩
        zeroMW false MigrateMode.sync
      = UnmapOut.ret (-EAGAIN) ⟨true, false, false, false, true, true⟩
          zeroMW := by
  obtain ⟨h1, h2, h3, h4⟩ := c10_null_mapping_mapped_keeps_lock false false
    stuckEnv stuckEnv ⟨true, false, false, false, true, false⟩ zeroMW
    false false MigrateMode.sync MigrateMode.sync rfl rfl rfl rfl rfl rfl rfl
  exact ⟨h1, h2, h3 rfl, h4 (Or.inl rfl)⟩

/-- Claim C1 (code bug, evaluation at the failing input): with a two-page
batch in which page 0 fails transiently on every pass and page 1 first
succeeds on the final pass (pass 9, as the last page processed), the
unmap retry loop ends with page 0 still pending, yet `unmap_sma_pages`
returns the last attempt's code `MIGRATEPAGE_SUCCESS`; so
`migrate_sma_pages` returns 0 and issues the monitor call with a
partially-unmapped batch — contradicting the claimed abort-on-residual
behaviour. -/
theorem c1_monitor_call_despite_residual :
    (migrate_sma_pages
        (fun pass p => if p = 1 ∧ 9 ≤ pass then cleanEnv else stuckEnv)
        (fun _ _ => goodMove 100) true false 500 MigrateMode.sync [0, 1]
        (fun p => if p ≤ 1 then mappedPage else freshDest) zeroMW).map
      (fun o => (o.rc, o.pending, o.smc.isSome, o.unmapped, o.moved))
      = some (0, [0], true, [], [1]) := by
  rfl

/-- Counterexample to claim C3 as stated: on the unmap-failure abort path
(`goto out` at line 333 skips the clear at line 335), `migrate_sma_pages`
returns with `is_migrating` still true. -/
theorem c3_flag_left_true_on_abort :
    (migrate_sma_pages (fun _ _ => stuckEnv) (fun _ _ => goodMove 100) true
        false 500 MigrateMode.sync [0] (fun _ => mappedPage) zeroMW).map
      (fun o => (o.rc, o.mw.is_migrating, o.smc.isSome))
      = some (-EAGAIN, true, false) := by
  rfl

/-- Claim C3 (amended): `is_migrating` is set true by the batch-start reset
(before `unmap_sma_pages` is called) and, whenever the monitor call is
issued, it has already been cleared; but on the unmap-failure abort path
the flag is still true when `migrate_sma_pages` returns — the final flag
value is exactly the negation of "the monitor call was issued". -/
theorem c3_flag_cleared_iff_monitor_call (uEnv : Nat → Nat → UnmapEnv)
    (mEnv : Nat → Nat → MoveEnv) (hasPutNewPage memalloc : Bool)
    (dst : Nat) (mode : MigrateMode) (batch : List Nat)
    (store0 : Nat → PageState) (mw0 : MWState) :
    (mwBatchInit mw0).is_migrating = true ∧
    match migrate_sma_pages uEnv mEnv hasPutNewPage memalloc dst mode batch
        store0 mw0 with
    | none => True
    | some o => o.mw.is_migrating = !o.smc.isSome := by
  refine ⟨rfl, ?_⟩
  split
  · trivial
  next o heq =>
    simp only [migrate_sma_pages] at heq
    split at heq
    · exact Option.noConfusion heq
    next pending' u hu =>
      simp only [unmap_sma_pages] at hu
      have hmig : u.mw.is_migrating = true :=
        unmapLoop_is_migrating memalloc uEnv mode 10 0 batch _ _ _ hu
      split at heq
      · simp only [Option.some.injEq] at heq
        subst heq
        exact hmig
      · split at heq
        · exact Option.noConfusion heq
        next unmapped' m hmv =>
          simp only [Option.some.injEq] at heq
          subst heq
          rfl

/-- Counterexample to claim C4 as stated: the batch-start reset (lines
325–327) does not clear the `migrate_ipns` table.  Starting from a
window state whose table holds a stale entry 5 at index 0, a batch whose
unmap phase records nothing still sends a descriptor whose entry 0 is 5,
not 0, even though `nr_migrate_pages` shows nothing was written this
batch. -/
theorem c4_stale_table_entry_in_descriptor :
    (migrate_sma_pages (fun _ _ => cleanEnv) (fun _ _ => goodMove 100) true
        false 500 MigrateMode.sync [0]
        (fun p => if p = 0 then mappedPage else freshDest)
        ⟨false, 7, 3, fun i => if i = 0 then 5 else 0⟩).map
      (fun o => (o.rc, o.mw.nr_pages,
        o.smc.map (fun r => (r.ipn_list 0, r.nr_pages, r.sec_vm_id))))
      = some (0, 0, some (5, 2048, 0)) := by
  rfl

/-- Claim C4 (amended): at batch start `migrate_sma_pages` resets the
compartment identifier and page counter to zero and sets the in-progress
flag, but leaves the intermediate-address table untouched; consequently,
when the unmap phase records nothing, the descriptor's table is exactly
the table as it was before the batch (stale entries included), rather
than zero. -/
theorem c4_reset_preserves_table (uEnv : Nat → Nat → UnmapEnv)
    (mEnv : Nat → Nat → MoveEnv) (hasPutNewPage memalloc : Bool)
    (dst : Nat) (mode : MigrateMode) (batch : List Nat)
    (store0 : Nat → PageState) (mw0 : MWState)
    (hnil : ∀ i q, (uEnv i q).ipnWrites = []) :
    (mwBatchInit mw0).sec_vm_id = 0 ∧ (mwBatchInit mw0).nr_pages = 0 ∧
    (mwBatchInit mw0).is_migrating = true ∧
    (mwBatchInit mw0).ipns = mw0.ipns ∧
    (match migrate_sma_pages uEnv mEnv hasPutNewPage memalloc dst mode batch
        store0 mw0 with
     | none => True
     | some o =>
       match o.smc with
       | none => True
       | some req => req.ipn_list = mw0.ipns) := by
  refine ⟨rfl, rfl, rfl, rfl, ?_⟩
  split
  · trivial
  next o heq =>
    split
    · trivial
    next req hreq =>
      simp only [migrate_sma_pages] at heq
      split at heq
      · exact Option.noConfusion heq
      next pending' u hu =>
        simp only [unmap_sma_pages] at hu
        have hmw : u.mw = mwBatchInit mw0 :=
          unmapLoop_mw_of_nil memalloc uEnv mode hnil 10 0 batch _ _ _ hu
        split at heq
        · simp only [Option.some.injEq] at heq
          subst heq
          exact Option.noConfusion hreq
        · split at heq
          · exact Option.noConfusion heq
          next unmapped' m hmv =>
            simp only [Option.some.injEq] at heq
            subst heq
            injection hreq with h
            subst h
            show ({u.mw with is_migrating := false}).ipns = mw0.ipns
            rw [hmw]
            rfl

/-- Witness for C4 at a concrete input: a write-free batch over one
trivially-unmappable page, starting from the zero window state. -/
theorem c4_reset_preserves_table_witness :
    (mwBatchInit zeroMW).sec_vm_id = 0 ∧ (mwBatchInit zeroMW).nr_pages = 0 ∧
    (mwBatchInit zeroMW).is_migrating = true ∧
    (mwBatchInit zeroMW).ipns = zeroMW.ipns ∧
    (match migrate_sma_pages (fun _ _ => cleanEnv) (fun _ _ => goodMove 100)
        true false 500 MigrateMode.sync [0]
        (fun p => if p = 0 then mappedPage else freshDest) zeroMW with
     | none => True
     | some o =>
       match o.smc with
       | none => True
       | some req => req.ipn_list = zeroMW.ipns) :=
  c4_reset_preserves_table (fun _ _ => cleanEnv) (fun _ _ => goodMove 100)
    true false 500 MigrateMode.sync [0]
    (fun p => if p = 0 then mappedPage else freshDest) zeroMW
    (fun _ _ => rfl)

/-- Counterexample to claim C5 as stated: a page whose post-move
`page_count(newpage)` is 3 (not 2) is not aborted — `move_sma_pages`
still returns `MIGRATEPAGE_SUCCESS`, drains the unmapped list and places
the page on the moved list; only the diagnostic counter records the
anomaly. -/
theorem c5_refcount_anomaly_still_success :
    (move_sma_pages (fun _ _ => ⟨some 100, true, MIGRATEPAGE_SUCCESS, 3⟩)
        true MigrateMode.sync_no_copy [1]
        (fun p => if p = 1 then unmappedSrc else freshDest)).map
      (fun x => (x.2.rc, x.1, x.2.moved, x.2.refcountErrs))
      = some (0, [], [1], 1) := by
  rfl

/-- Claim C5 (amended): when the destination's reference count after the
move is not exactly 2, `__move_sma_page` reports the condition (the
diagnostic fires) but does not treat it as fatal: with a successful
`move_to_new_page` the outcome is still `MIGRATEPAGE_SUCCESS` and the
page proceeds as moved. -/
theorem c5_refcount_warn_not_fatal (env : MoveEnv) (pSt nSt : PageState)
    (mode : MigrateMode) (hm : pSt.mapped = false) (hl : nSt.locked = false)
    (hlk : env.newpageLockOk = true)
    (hrc : env.moveRc = MIGRATEPAGE_SUCCESS) (hc : env.newCount ≠ 2) :
    (move_sma_page_core env pSt nSt mode).rc = MIGRATEPAGE_SUCCESS ∧
    (move_sma_page_core env pSt nSt mode).warn = true := by
  simp [move_sma_page_core, hm, hl, hlk, hrc, hc]

/-- Witness for C5 at a concrete input: post-move count 3. -/
theorem c5_refcount_warn_not_fatal_witness :
    (move_sma_page_core ⟨some 100, true, MIGRATEPAGE_SUCCESS, 3⟩ unmappedSrc
        freshDest MigrateMode.sync_no_copy).rc = MIGRATEPAGE_SUCCESS ∧
    (move_sma_page_core ⟨some 100, true, MIGRATEPAGE_SUCCESS, 3⟩ unmappedSrc
        freshDest MigrateMode.sync_no_copy).warn = true :=
  c5_refcount_warn_not_fatal ⟨some 100, true, MIGRATEPAGE_SUCCESS, 3⟩
    unmappedSrc freshDest MigrateMode.sync_no_copy rfl rfl rfl rfl
    (by decide)

/-- Counterexample to claim C6 as stated: in Scenario C (supply returns
none for 1 of 4 already-unmapped pages, here the first in list order),
the batch result reported by `move_sma_pages` is 0 — a success
indication, not a partial-failure indication. -/
theorem c6_exhausted_batch_reports_success :
    (move_sma_pages
        (fun _ q => if q = 0 then ⟨none, true, MIGRATEPAGE_SUCCESS, 2⟩
          else goodMove (100 + q))
        true MigrateMode.sync_no_copy [0, 1, 2, 3]
        (fun p => if p ≤ 3 then unmappedSrc else freshDest)).map
      (fun x => x.2.rc)
      = some 0 := by
  rfl

/-- Claim C6 (amended): when the supply callback returns none for one page
of an otherwise-successful batch, that page fails with `-ENOMEM`, stays
in the unmapped list, is not retried (since `-ENOMEM` does not set the
retry flag the loop ends after one pass) and its supply callback ran
once with no release; the other three pages reach the moved list; but
the batch result is the last attempt's code — 0 (success) when the
exhausted page is not processed last, `-ENOMEM` when it is — never a
partial-failure count. -/
theorem c6_scenario_c_outcomes :
    (move_sma_pages
        (fun _ q => if q = 0 then ⟨none, true, MIGRATEPAGE_SUCCESS, 2⟩
          else goodMove (100 + q))
        true MigrateMode.sync_no_copy [0, 1, 2, 3]
        (fun p => if p ≤ 3 then unmappedSrc else freshDest)).map
      (fun x => (x.2.rc, x.1, x.2.moved, x.2.supplyCount 0,
        x.2.releaseCount 0, x.2.npasses))
      = some (0, [0], [3, 2, 1], 1, 0, 1) ∧
    (move_sma_pages
        (fun _ q => if q = 0 then ⟨none, true, MIGRATEPAGE_SUCCESS, 2⟩
          else goodMove (100 + q))
        true MigrateMode.sync_no_copy [1, 2, 3, 0]
        (fun p => if p ≤ 3 then unmappedSrc else freshDest)).map
      (fun x => (x.2.rc, x.1, x.2.moved, x.2.supplyCount 0))
      = some (-ENOMEM, [0], [3, 2, 1], 1) :=
  ⟨rfl, rfl⟩

/-- Counterexample to claim C7 as stated: a page that fails transiently on
pass 0 and succeeds on pass 1 has `get_new_page` invoked twice (once per
pass) during the one Move Phase, not exactly once. -/
theorem c7_supply_called_twice_across_passes :
    (move_sma_pages
        (fun pass q => if pass = 0 then ⟨some 100, true, -EAGAIN, 2⟩
          else goodMove 100)
        true MigrateMode.sync_no_copy [1]
        (fun p => if p = 1 then unmappedSrc else freshDest)).map
      (fun x => (x.2.rc, x.2.moved, x.2.supplyCount 1, x.2.releaseCount 1))
      = some (0, [1], 2, 1) := by
  rfl

/-- Claim C7 (amended): the callback pair is exact per attempt, not per
page: every call of `move_sma_page` on page `p` invokes `get_new_page`
exactly once, and invokes `put_new_page` exactly once iff the attempt's
result is `-EAGAIN` (and the callback is present); a page retried across
passes therefore incurs one supply per pass it participates in. -/
theorem c7_supply_release_once_per_attempt (env : MoveEnv) (hasPut : Bool)
    (mode : MigrateMode) (s : MoveState) (p : Nat) :
    match move_sma_page env hasPut mode s p with
    | none => True
    | some x =>
        x.2.supplyCount p = s.supplyCount p + 1 ∧
        x.2.releaseCount p = s.releaseCount p +
          (if x.1 = -EAGAIN ∧ hasPut = true then 1 else 0) := by
  split
  · trivial
  next x heq =>
    obtain ⟨rc, s'⟩ := x
    simp only [move_sma_page] at heq
    split at heq
    · simp only [Option.some.injEq, Prod.mk.injEq] at heq
      obtain ⟨h1, h2⟩ := heq
      subst h1; subst h2
      constructor
      · simp [bump]
      · norm_num [ENOMEM, EAGAIN]
    · split at heq
      next hsucc =>
        split at heq
        · exact Option.noConfusion heq
        · simp only [Option.some.injEq, Prod.mk.injEq] at heq
          obtain ⟨h1, h2⟩ := heq
          subst h1; subst h2
          constructor
          · simp [bump]
          · simp [hsucc, MIGRATEPAGE_SUCCESS, EAGAIN]
      next hnsucc =>
        split at heq
        next hea =>
          simp only [Option.some.injEq, Prod.mk.injEq] at heq
          obtain ⟨h1, h2⟩ := heq
          subst h1; subst h2
          cases hasPut <;> simp [bump, hea]
        next hnea =>
          simp only [Option.some.injEq, Prod.mk.injEq] at heq
          obtain ⟨h1, h2⟩ := heq
          subst h1; subst h2
          constructor
          · simp [bump]
          · simp [hnea]

/-- Counterexample to claim C8's failure-declaration clause: in the move
loop, page 0 fails transiently on all 10 passes while page 1 (processed
last) first succeeds on pass 9; the loop performs its full 10 passes and
then returns `MIGRATEPAGE_SUCCESS` — no batch failure is declared even
though page 0 remains. -/
theorem c8_remaining_pages_without_failure_code :
    (move_sma_pages
        (fun pass q =>
          if q = 1 ∧ 9 ≤ pass then goodMove 101
          else if q = 1 then ⟨some 101, true, -EAGAIN, 2⟩
          else ⟨some 100, true, -EAGAIN, 2⟩)
        true MigrateMode.sync_no_copy [0, 1]
        (fun p => if p ≤ 1 then unmappedSrc else freshDest)).map
      (fun x => (x.2.rc, x.1, x.2.moved, x.2.npasses))
      = some (0, [0], [1], 10) := by
  rfl

end MigrateSMA
